import Mathlib

/-!
Verification of the service scaffolder (`scripts/create-service.py`).

The scaffolder is a single linear program: it validates its two
command-line arguments, checks that `services/<name>` does not already
exist, creates a fixed directory skeleton and writes a fixed set of
rendered template files, then exits.  We embed it shallowly: the
filesystem is an association list from paths (lists of components,
relative to the repository root) to entries (directories or files with
string contents), and each Python filesystem primitive used by the
script (`Path.exists`, `Path.mkdir(parents=True, exist_ok=True)`,
`open(..., "w")`) becomes an explicit function on that state.
-/

namespace CreateService

/-- A filesystem path, as a list of components relative to the repo root. -/
abbrev FsPath := List String

/-- A filesystem entry: a directory, or a file with its text contents. -/
inductive Entry where
  | dir : Entry
  | file : String → Entry
  deriving DecidableEq

/-- The filesystem state: an association list from paths to entries.
New entries are prepended; lookup takes the first match. -/
abbrev Fs := List (FsPath × Entry)

/-- Look up the entry at a path. -/
def lookupFs : Fs → FsPath → Option Entry
  | [], _ => none
  | (q, e) :: rest, p => if q = p then some e else lookupFs rest p

/-- `Path.exists()`: true if any entry (file or directory) is at the path. -/
def pathExists (fs : Fs) (p : FsPath) : Bool :=
  (lookupFs fs p).isSome

/-- Record a file at a path, replacing any previous file entry there. -/
def setFile (fs : Fs) (p : FsPath) (c : String) : Fs :=
  if (lookupFs fs p).isSome then
    fs.map (fun e => if e.1 = p then (p, Entry.file c) else e)
  else
    (p, Entry.file c) :: fs

/-- The parent of a path (all components but the last). -/
def parentPath (p : FsPath) : FsPath := p.dropLast

/-- One `mkdir(exist_ok=True)` step: an existing directory is fine, an
existing file at the path is an error, otherwise the directory is added. -/
def mkdirOne (fs : Fs) (p : FsPath) : Option Fs :=
  match lookupFs fs p with
  | some Entry.dir => some fs
  | some (Entry.file _) => none
  | none => some ((p, Entry.dir) :: fs)

/-- The nonempty prefixes of a path, shortest first. -/
def prefixesOf : FsPath → List FsPath
  | [] => []
  | a :: as => [a] :: (prefixesOf as).map (fun q => a :: q)

/-- Create a list of directories in order, failing fast. -/
def mkdirList : Fs → List FsPath → Option Fs
  | fs, [] => some fs
  | fs, p :: ps =>
    match mkdirOne fs p with
    | none => none
    | some fs1 => mkdirList fs1 ps

/-- `Path.mkdir(parents=True, exist_ok=True)`: create every ancestor of
the path and the path itself; a file occupying any of them is an error. -/
def mkdirParents (fs : Fs) (p : FsPath) : Option Fs :=
  mkdirList fs (prefixesOf p)

/-- Run `mkdirParents` over a list of directories, failing fast. -/
def mkdirDirs : Fs → List FsPath → Option Fs
  | fs, [] => some fs
  | fs, d :: ds =>
    match mkdirParents fs d with
    | none => none
    | some fs1 => mkdirDirs fs1 ds

/-- `open(p, "w")` followed by a write: fails if the path is a directory
or its parent is not an existing directory; otherwise creates/overwrites. -/
def writeFile (fs : Fs) (p : FsPath) (c : String) : Option Fs :=
  match lookupFs fs p with
  | some Entry.dir => none
  | _ =>
    match lookupFs fs (parentPath p) with
    | some Entry.dir => some (setFile fs p c)
    | _ => none

/-- Write a list of files in order, failing fast. -/
def writeAll : Fs → List (FsPath × String) → Option Fs
  | fs, [] => some fs
  | fs, (p, c) :: rest =>
    match writeFile fs p c with
    | none => none
    | some fs1 => writeAll fs1 rest

/-- Python `str.upper()` on ASCII text. -/
def pyUpper (s : String) : String :=
  String.mk (s.data.map Char.toUpper)

/-- Helper for `pyTitle`: tracks whether the previous character was cased. -/
def pyTitleAux : Bool → List Char → List Char
  | _, [] => []
  | prevCased, c :: rest =>
    if c.isAlpha then
      (if prevCased then c.toLower else c.toUpper) :: pyTitleAux true rest
    else
      c :: pyTitleAux false rest

/-- Python `str.title()` on ASCII text: uppercase each letter that follows
a non-letter, lowercase the other letters. -/
def pyTitle (s : String) : String :=
  String.mk (pyTitleAux false s.data)

/-- The decimal digit character for `n % 10`. -/
def natDigitChar (n : Nat) : Char := Char.ofNat (48 + n % 10)

/-- Accumulate the decimal digits of `n` in front of `acc`; the fuel
argument strictly bounds the digit count (any fuel above `n` is enough,
since `n / 10 < n` for positive `n`). -/
def natStrAux : Nat → Nat → List Char → List Char
  | 0, _, acc => acc
  | fuel + 1, n, acc =>
    if n < 10 then natDigitChar n :: acc
    else natStrAux fuel (n / 10) (natDigitChar n :: acc)

/-- Decimal rendering of a natural number. -/
def natStr (n : Nat) : String := String.mk (natStrAux (n + 1) n [])

/-- Python `str(int)`: decimal rendering with a leading minus if negative. -/
def intStr (i : Int) : String :=
  if i < 0 then "-" ++ natStr i.natAbs else natStr i.natAbs

/-- JSON values, as needed by the generated `package.json`. -/
inductive Json where
  | str : String → Json
  | arr : List Json → Json
  | obj : List (String × Json) → Json

/-- Lowercase hexadecimal digit character for `n % 16`. -/
def hexDigitChar (n : Nat) : Char :=
  if n % 16 < 10 then Char.ofNat (48 + n % 16) else Char.ofNat (87 + n % 16)

/-- Four lowercase hex digits of a code unit, as in Python `\uXXXX` escapes. -/
def hex4 (n : Nat) : String :=
  String.mk [hexDigitChar (n / 4096), hexDigitChar (n / 256),
             hexDigitChar (n / 16), hexDigitChar n]

/-- Escape one character as Python `json.dump` does (`ensure_ascii=True`). -/
def escapeJsonChar (c : Char) : String :=
  if c = '"' then "\\\""
  else if c = '\\' then "\\\\"
  else if c = '\n' then "\\n"
  else if c = '\r' then "\\r"
  else if c = '\t' then "\\t"
  else if c.toNat = 8 then "\\b"
  else if c.toNat = 12 then "\\f"
  else if 32 ≤ c.toNat ∧ c.toNat ≤ 126 then String.singleton c
  else if c.toNat ≤ 65535 then "\\u" ++ hex4 c.toNat
  else
    "\\u" ++ hex4 (55296 + (c.toNat - 65536) / 1024) ++
    "\\u" ++ hex4 (56320 + (c.toNat - 65536) % 1024)

/-- A JSON string literal, quoted and escaped as Python `json.dump` does. -/
def jsonQuote (s : String) : String :=
  "\"" ++ String.join (s.data.map escapeJsonChar) ++ "\""

/-- A run of `n` spaces. -/
def spacesOf (n : Nat) : String := String.mk (List.replicate n ' ')

mutual

/-- Render a JSON value as Python `json.dump(..., indent=2)` does, at the
given current indentation level. -/
def renderJson : Nat → Json → String
  | _, Json.str s => jsonQuote s
  | _, Json.arr [] => "[]"
  | ind, Json.arr (x :: xs) =>
    "[\n" ++ renderElems (ind + 2) x xs ++ "\n" ++ spacesOf ind ++ "]"
  | _, Json.obj [] => "\x7b\x7d"
  | ind, Json.obj (f :: fl) =>
    "\x7b\n" ++ renderMembers (ind + 2) f fl ++ "\n" ++ spacesOf ind ++ "\x7d"
termination_by _ j => sizeOf j

/-- Render array elements joined by `,\n`, each indented. -/
def renderElems : Nat → Json → List Json → String
  | ind, x, [] => spacesOf ind ++ renderJson ind x
  | ind, x, y :: ys =>
    spacesOf ind ++ renderJson ind x ++ ",\n" ++ renderElems ind y ys
termination_by _ x xs => sizeOf x + sizeOf xs

/-- Render object members joined by `,\n`, each indented, `": "` separated. -/
def renderMembers : Nat → (String × Json) → List (String × Json) → String
  | ind, (k, v), [] => spacesOf ind ++ jsonQuote k ++ ": " ++ renderJson ind v
  | ind, (k, v), g :: gs =>
    spacesOf ind ++ jsonQuote k ++ ": " ++ renderJson ind v ++ ",\n" ++
    renderMembers ind g gs
termination_by _ f fl => sizeOf f + sizeOf fl

end

/-- Look up a top-level field of a JSON object. -/
def jsonField (j : Json) (key : String) : Option Json :=
  match j with
  | Json.obj fields => fields.lookup key
  | _ => none

/-- A string is JSON text when it is the rendering of some JSON value. -/
def IsJsonText (s : String) : Prop := ∃ j : Json, renderJson 0 j = s

/-- The `package_json` dict built by `create_service`, field for field. -/
def package_json (service_name : String) : Json :=
  Json.obj [
    ("name", Json.str (service_name ++ "-service")),
    ("version", Json.str "1.0.0"),
    ("description", Json.str ""),
    ("main", Json.str "index.js"),
    ("scripts", Json.obj [
      ("start", Json.str "node index.js"),
      ("dev", Json.str "nodemon index.js")]),
    ("keywords", Json.arr []),
    ("author", Json.str ""),
    ("license", Json.str "ISC"),
    ("type", Json.str "module"),
    ("dependencies", Json.obj [
      ("@shared/config", Json.str "workspace:*"),
      ("@shared/utils", Json.str "workspace:*"),
      ("@shared/providers", Json.str "workspace:*"),
      ("@shared/middlewares", Json.str "workspace:*"),
      ("@shared/cloudinary", Json.str "workspace:*"),
      ("@shared/env-loader", Json.str "workspace:*")]),
    ("devDependencies", Json.obj [
      ("nodemon", Json.str "^3.1.11")])]

/-- The `env_content` f-string of `create_service`. -/
def envContent (service_name : String) (port : Int) : String :=
  "# \n# " ++ pyUpper service_name ++
  " SERVICE - Specific Configuration\n# Loaded after root .env (can override common variables if needed)\n# \n\n# Server Port (" ++
  pyTitle service_name ++ " Service)\nPORT=" ++ intStr port ++ "\n"

/-- The `index_js` f-string of `create_service`. -/
def indexJs (port : Int) : String :=
  "import \"@shared/env-loader\";\n" ++
  "import \x7b database as connectDB \x7d from \"@shared/config\";\n" ++
  "import createApp from \"./config/express.config.js\";\n\n" ++
  "const PORT = process.env.PORT || " ++ intStr port ++ ";\n\n" ++
  "async function startServer() \x7b\n" ++
  "  console.log(\"> Starting server...\");\n\n" ++
  "  await connectDB();\n\n" ++
  "  const app = createApp();\n\n" ++
  "  app.listen(PORT, () => \x7b\n" ++
  "    console.log(\x60> Server running on port $\x7bPORT\x7d\x60);\n" ++
  "  \x7d);\n" ++
  "\x7d\n\n" ++
  "startServer().catch((error) => \x7b\n" ++
  "  console.error(\"> Failed to start server:\", error);\n" ++
  "  process.exit(1);\n" ++
  "\x7d);\n"

/-- The `express_config` string literal of `create_service`. -/
def expressConfig : String :=
  "import express from \"express\";\n" ++
  "import cors from \"cors\";\n" ++
  "import routes from \"../index.route.js\";\n\n" ++
  "export default function createApp() \x7b\n" ++
  "  const app = express();\n\n" ++
  "  console.log(\"> Middleware configured\");\n\n" ++
  "  app.use(cors());\n" ++
  "  app.use(express.json());\n" ++
  "  app.use(express.urlencoded(\x7b extended: true \x7d));\n\n" ++
  "  console.log(\"> Routes initialized\");\n" ++
  "  app.use(\"/api\", routes);\n\n" ++
  "  return app;\n" ++
  "\x7d\n"

/-- The `index_route` string literal of `create_service`. -/
def indexRoute : String :=
  "import \x7b Router \x7d from \"express\";\n" ++
  "import \x7b sendResponse \x7d from \"@shared/utils\";\n\n" ++
  "const router = Router();\n\n" ++
  "/**\n * @route GET /api/health\n * @description Health check endpoint\n */\n" ++
  "router.get(\"/health\", (req, res) => \x7b\n" ++
  "  sendResponse(res, 200, \"Server is running\", \x7b status: \"ok\" \x7d, null);\n" ++
  "\x7d);\n\n" ++
  "// TODO: Add your routes here\n" ++
  "// Example:\n" ++
  "// import exampleRoutes from \"./src/example/example.route.js\";\n" ++
  "// router.use(\"/examples\", exampleRoutes);\n\n" ++
  "export default router;\n"

/-- The `readme` f-string of `create_service`. -/
def readmeMd (service_name : String) (port : Int) : String :=
  "# " ++ pyTitle service_name ++ " Service\n\nPort: " ++ intStr port ++
  "\n\n## Running\n\n\x60\x60\x60bash\n" ++
  "pnpm --filter " ++ service_name ++ "-service start\n" ++
  "pnpm --filter " ++ service_name ++ "-service dev\n" ++
  "\x60\x60\x60\n\n## Health Check\n\n\x60\x60\x60bash\n" ++
  "curl http://localhost:" ++ intStr port ++ "/api/health\n" ++
  "\x60\x60\x60\n"

/-- `root / "services" / service_name`, relative to the repo root. -/
def serviceDir (service_name : String) : FsPath :=
  ["services", service_name]

/-- The `dirs` list of `create_service`, in creation order. -/
def serviceDirs (service_name : String) : List FsPath :=
  [serviceDir service_name,
   serviceDir service_name ++ ["src"],
   serviceDir service_name ++ ["config"],
   serviceDir service_name ++ ["models"],
   serviceDir service_name ++ ["scripts"]]

/-- The files `create_service` writes, in write order, with their contents. -/
def scaffoldFiles (service_name : String) (port : Int) : List (FsPath × String) :=
  [(serviceDir service_name ++ ["package.json"],
    renderJson 0 (package_json service_name)),
   (serviceDir service_name ++ [".env"], envContent service_name port),
   (serviceDir service_name ++ ["index.js"], indexJs port),
   (serviceDir service_name ++ ["config", "express.config.js"], expressConfig),
   (serviceDir service_name ++ ["index.route.js"], indexRoute),
   (serviceDir service_name ++ ["README.md"], readmeMd service_name port)]

/-- Outcome of one process run: normal completion (exit status 0),
`sys.exit(code)`, or an unhandled exception (abnormal termination). -/
inductive RunResult where
  | ok : Fs → RunResult
  | exited : Nat → Fs → RunResult
  | fault : RunResult
  deriving DecidableEq

/-- The `create_service` function: existence check, directory creation,
then the six template file writes. -/
def create_service (service_name : String) (port : Int) (fs : Fs) : RunResult :=
  if pathExists fs (serviceDir service_name) then RunResult.exited 1 fs
  else
    match mkdirDirs fs (serviceDirs service_name) with
    | none => RunResult.fault
    | some fs1 =>
      match writeAll fs1 (scaffoldFiles service_name port) with
      | none => RunResult.fault
      | some fs2 => RunResult.ok fs2

/-- Is `c` an ASCII decimal digit? -/
def isDigitChar (c : Char) : Bool :=
  48 ≤ c.toNat && c.toNat ≤ 57

/-- The numeric value of an ASCII digit character. -/
def digitVal (c : Char) : Nat := c.toNat - 48

/-- Continue parsing digits, allowing single underscores between digits
as Python `int()` does. -/
def parseDigitsAux : Nat → List Char → Option Nat
  | acc, [] => some acc
  | acc, '_' :: c :: rest =>
    if isDigitChar c then parseDigitsAux (acc * 10 + digitVal c) rest else none
  | acc, c :: rest =>
    if isDigitChar c then parseDigitsAux (acc * 10 + digitVal c) rest else none

/-- Parse a nonempty digit string (with Python underscore grouping). -/
def parseDigits : List Char → Option Nat
  | [] => none
  | c :: rest =>
    if isDigitChar c then parseDigitsAux (digitVal c) rest else none

/-- Is `c` ASCII whitespace (as stripped by Python `int()`)? -/
def isSpaceChar (c : Char) : Bool :=
  c = ' ' || c = '\t' || c = '\n' || c = '\r' || c.toNat = 11 || c.toNat = 12

/-- Strip leading and trailing whitespace from a character list. -/
def trimChars (l : List Char) : List Char :=
  ((l.dropWhile isSpaceChar).reverse.dropWhile isSpaceChar).reverse

/-- Python `int(s)`: strip whitespace, optional sign, decimal digits. -/
def parseIntPy (s : String) : Option Int :=
  match trimChars s.data with
  | '+' :: rest => (parseDigits rest).map (fun k => (k : Int))
  | '-' :: rest => (parseDigits rest).map (fun k => -(k : Int))
  | cs => (parseDigits cs).map (fun k => (k : Int))

/-- The `__main__` block: `args` is `sys.argv[1:]`.  Wrong argument count
and unparseable port exit with status 1 before `create_service` is called. -/
def mainRun (args : List String) (fs : Fs) : RunResult :=
  match args with
  | [service_name, portStr] =>
    match parseIntPy portStr with
    | some port => create_service service_name port fs
    | none => RunResult.exited 1 fs
  | _ => RunResult.exited 1 fs

/-- The entries a successful run prepends to the filesystem, newest first:
six rendered files, then the five directories of the skeleton. -/
def scaffoldEntries (service_name : String) (port : Int) : List (FsPath × Entry) :=
  [(["services", service_name, "README.md"],
    Entry.file (readmeMd service_name port)),
   (["services", service_name, "index.route.js"], Entry.file indexRoute),
   (["services", service_name, "config", "express.config.js"],
    Entry.file expressConfig),
   (["services", service_name, "index.js"], Entry.file (indexJs port)),
   (["services", service_name, ".env"],
    Entry.file (envContent service_name port)),
   (["services", service_name, "package.json"],
    Entry.file (renderJson 0 (package_json service_name))),
   (["services", service_name, "scripts"], Entry.dir),
   (["services", service_name, "models"], Entry.dir),
   (["services", service_name, "config"], Entry.dir),
   (["services", service_name, "src"], Entry.dir),
   (["services", service_name], Entry.dir)]

/-- `base` is an initial segment of `p` (so `p` is `base` or below it). -/
def isUnder : FsPath → FsPath → Bool
  | [], _ => true
  | _ :: _, [] => false
  | a :: as, b :: bs => if a = b then isUnder as bs else false

/-- Number of file entries in a filesystem fragment. -/
def countFiles (fs : Fs) : Nat :=
  (fs.filter (fun e => match e.2 with | Entry.file _ => true | _ => false)).length

/-- Number of directory entries in a filesystem fragment. -/
def countDirs (fs : Fs) : Nat :=
  (fs.filter (fun e => match e.2 with | Entry.dir => true | _ => false)).length

/-- Split a character list at every occurrence of `sep`. -/
def splitOnChar (sep : Char) : List Char → List (List Char)
  | [] => [[]]
  | c :: rest =>
    match splitOnChar sep rest with
    | [] => [[]]
    | l :: ls => if c = sep then [] :: l :: ls else (c :: l) :: ls

/-- The lines of a string, split at every newline. -/
def linesOf (s : String) : List String :=
  (splitOnChar '\n' s.data).map (fun cs => String.mk cs)

/-- Does the second list occur at the head of the first? -/
def startsWithChars : List Char → List Char → Bool
  | _, [] => true
  | [], _ :: _ => false
  | a :: as, b :: bs => if a = b then startsWithChars as bs else false

/-- Does `sub` occur contiguously somewhere in `l`? -/
def hasSegment : List Char → List Char → Bool
  | [], sub => sub.isEmpty
  | c :: rest, sub => startsWithChars (c :: rest) sub || hasSegment rest sub

/-- Does `s` contain `sub` as a contiguous substring? -/
def containsSubstr (s sub : String) : Bool :=
  hasSegment s.data sub.data

end CreateService

namespace CreateService

/-! ### General helper lemmas -/

theorem strData_append (s t : String) : (s ++ t).data = s.data ++ t.data := by
  cases s; cases t; rfl

theorem strMk_data (s : String) : String.mk s.data = s := by
  cases s; rfl

theorem strAppend_assoc (a b c : String) : (a ++ b) ++ c = a ++ (b ++ c) := by
  cases a; cases b; cases c
  show String.mk _ = String.mk _
  simp [String.append, List.append_assoc]

theorem lookup_none_of_clean (base : FsPath) :
    ∀ fs : Fs, (∀ e ∈ fs, isUnder base e.1 = false) →
    ∀ p, isUnder base p = true → lookupFs fs p = none := by
  intro fs
  induction fs with
  | nil => intro _ p _; rfl
  | cons e rest ih =>
    intro h p hp
    have he := h e (List.mem_cons_self e rest)
    have hrest : ∀ x ∈ rest, isUnder base x.1 = false :=
      fun x hx => h x (List.mem_cons_of_mem e hx)
    by_cases hq : e.1 = p
    · rw [hq] at he; rw [he] at hp; cases hp
    · show lookupFs (e :: rest) p = none
      rw [lookupFs]
      cases e with
      | mk q v =>
        simp only [] at hq
        rw [if_neg hq]
        exact ih hrest p hp

/-- Master lemma: when `services` is a directory and nothing at or below
`services/<n>` exists, `create_service` succeeds and the new state is
exactly the scaffold entries prepended to the old one. -/
theorem create_service_success (n : String) (p : Int) (fs : Fs)
    (hroot : lookupFs fs ["services"] = some Entry.dir)
    (hclean : fs.all (fun e => !(isUnder (serviceDir n) e.1)) = true) :
    create_service n p fs = RunResult.ok (scaffoldEntries n p ++ fs) := by
  have hcl : ∀ e ∈ fs, isUnder (serviceDir n) e.1 = false := by
    intro e he
    have h := List.all_eq_true.mp hclean e he
    simpa using h
  have hnone := lookup_none_of_clean (serviceDir n) fs hcl
  have h0 : lookupFs fs ["services", n] = none :=
    hnone _ (by simp [isUnder, serviceDir])
  have h1 : lookupFs fs ["services", n, "src"] = none :=
    hnone _ (by simp [isUnder, serviceDir])
  have h2 : lookupFs fs ["services", n, "config"] = none :=
    hnone _ (by simp [isUnder, serviceDir])
  have h3 : lookupFs fs ["services", n, "models"] = none :=
    hnone _ (by simp [isUnder, serviceDir])
  have h4 : lookupFs fs ["services", n, "scripts"] = none :=
    hnone _ (by simp [isUnder, serviceDir])
  have h5 : lookupFs fs ["services", n, "package.json"] = none :=
    hnone _ (by simp [isUnder, serviceDir])
  have h6 : lookupFs fs ["services", n, ".env"] = none :=
    hnone _ (by simp [isUnder, serviceDir])
  have h7 : lookupFs fs ["services", n, "index.js"] = none :=
    hnone _ (by simp [isUnder, serviceDir])
  have h8 : lookupFs fs ["services", n, "config", "express.config.js"] = none :=
    hnone _ (by simp [isUnder, serviceDir])
  have h9 : lookupFs fs ["services", n, "index.route.js"] = none :=
    hnone _ (by simp [isUnder, serviceDir])
  have h10 : lookupFs fs ["services", n, "README.md"] = none :=
    hnone _ (by simp [isUnder, serviceDir])
  simp [create_service, pathExists, serviceDirs, serviceDir, scaffoldFiles,
    scaffoldEntries, mkdirDirs, mkdirParents, prefixesOf, mkdirList, mkdirOne,
    writeAll, writeFile, setFile, parentPath, lookupFs, List.dropLast,
    hroot, h0, h1, h2, h3, h4, h5, h6, h7, h8, h9, h10]

/-! ### Line-splitting helper lemmas (for the `.env` `PORT=` line) -/

theorem tailSubset (l : List (List Char)) : l.tail ⊆ l := by
  cases l with
  | nil => simp
  | cons a as => intro x hx; exact List.mem_cons_of_mem a hx

theorem splitOnChar_ne_nil (sep : Char) (l : List Char) : splitOnChar sep l ≠ [] := by
  cases l with
  | nil => simp [splitOnChar]
  | cons c rest =>
    rw [splitOnChar]
    rcases h : splitOnChar sep rest with _ | ⟨a, as⟩
    · show ([[]] : List (List Char)) ≠ []
      simp
    · show (if c = sep then [] :: a :: as else (c :: a) :: as) ≠ []
      by_cases hc : c = sep
      · rw [if_pos hc]; simp
      · rw [if_neg hc]; simp

theorem splitOnChar_no_sep (sep : Char) :
    ∀ l : List Char, sep ∉ l → splitOnChar sep (l ++ [sep]) = [l, []] := by
  intro l
  induction l with
  | nil =>
    intro _
    simp [splitOnChar]
  | cons c rest ih =>
    intro h
    have hc : c ≠ sep := fun he => h (he ▸ List.mem_cons_self c rest)
    have hr : sep ∉ rest := fun hm => h (List.mem_cons_of_mem c hm)
    show splitOnChar sep (c :: (rest ++ [sep])) = [c :: rest, []]
    rw [splitOnChar, ih hr]
    show (if c = sep then [] :: rest :: [[]] else (c :: rest) :: [[]]) = [c :: rest, []]
    rw [if_neg hc]

theorem mem_tail_splitOnChar_append (sep : Char) (z : List Char) :
    ∀ xs ys : List Char, z ∈ (splitOnChar sep ys).tail →
      z ∈ (splitOnChar sep (xs ++ ys)).tail := by
  intro xs
  induction xs with
  | nil => intro ys h; simpa using h
  | cons c xs ih =>
    intro ys h
    have h2 := ih ys h
    show z ∈ (splitOnChar sep (c :: (xs ++ ys))).tail
    rw [splitOnChar]
    rcases hsp : splitOnChar sep (xs ++ ys) with _ | ⟨a, as⟩
    · exact absurd hsp (splitOnChar_ne_nil sep _)
    · rw [hsp] at h2
      by_cases hc : c = sep
      · show z ∈ (if c = sep then [] :: a :: as else (c :: a) :: as).tail
        rw [if_pos hc]
        show z ∈ a :: as
        exact List.mem_cons_of_mem a (by simpa using h2)
      · show z ∈ (if c = sep then [] :: a :: as else (c :: a) :: as).tail
        rw [if_neg hc]
        show z ∈ as
        simpa using h2

theorem line_mem_of_decomp (a : String) (l : List Char) (hl : ('\n' : Char) ∉ l) :
    String.mk l ∈ linesOf (a ++ ("\n" ++ (String.mk l ++ "\n"))) := by
  have hdata : (a ++ ("\n" ++ (String.mk l ++ "\n"))).data =
      a.data ++ ('\n' :: (l ++ ['\n'])) := by
    simp only [strData_append]
    rfl
  unfold linesOf
  rw [hdata]
  apply List.mem_map_of_mem
  have h1 : splitOnChar '\n' ('\n' :: (l ++ ['\n'])) = [] :: [l, []] := by
    rw [splitOnChar, splitOnChar_no_sep '\n' l hl]
    show (if '\n' = '\n' then [] :: l :: [[]] else ('\n' :: l) :: [[]]) = [] :: [l, []]
    rw [if_pos rfl]
  have h2 : l ∈ (splitOnChar '\n' ('\n' :: (l ++ ['\n']))).tail := by
    rw [h1]; simp
  have h3 := mem_tail_splitOnChar_append '\n' l a.data ('\n' :: (l ++ ['\n'])) h2
  exact tailSubset _ h3

theorem natDigitChar_ne_newline (m : Nat) : natDigitChar m ≠ '\n' := by
  unfold natDigitChar
  intro heq
  rcases (show m % 10 = 0 ∨ m % 10 = 1 ∨ m % 10 = 2 ∨ m % 10 = 3 ∨ m % 10 = 4 ∨
      m % 10 = 5 ∨ m % 10 = 6 ∨ m % 10 = 7 ∨ m % 10 = 8 ∨ m % 10 = 9 from by omega)
    with h|h|h|h|h|h|h|h|h|h <;>
    rw [h] at heq <;> exact absurd heq (by decide)

theorem natStrAux_chars :
    ∀ fuel n acc c, c ∈ natStrAux fuel n acc → c ∈ acc ∨ ∃ m, c = natDigitChar m := by
  intro fuel
  induction fuel with
  | zero => intro n acc c hc; exact Or.inl hc
  | succ fuel ih =>
    intro n acc c hc
    rw [natStrAux] at hc
    by_cases h : n < 10
    · rw [if_pos h] at hc
      rcases List.mem_cons.mp hc with h1 | h2
      · exact Or.inr ⟨n, h1⟩
      · exact Or.inl h2
    · rw [if_neg h] at hc
      rcases ih (n / 10) (natDigitChar n :: acc) c hc with h1 | h2
      · rcases List.mem_cons.mp h1 with h3 | h4
        · exact Or.inr ⟨n, h3⟩
        · exact Or.inl h4
      · exact Or.inr h2

theorem newline_not_mem_intStr (p : Int) : ('\n' : Char) ∉ (intStr p).data := by
  unfold intStr
  split
  · rw [strData_append]
    intro h
    rcases List.mem_append.mp h with h1 | h2
    · exact absurd h1 (by decide)
    · rcases natStrAux_chars _ _ _ _ h2 with h3 | ⟨m, hm⟩
      · exact absurd h3 (by decide)
      · exact natDigitChar_ne_newline m hm.symm
  · intro h
    rcases natStrAux_chars _ _ _ _ h with h3 | ⟨m, hm⟩
    · exact absurd h3 (by decide)
    · exact natDigitChar_ne_newline m hm.symm

theorem envContent_decomp (n : String) (p : Int) :
    envContent n p =
    ("# \n# " ++ pyUpper n ++
      " SERVICE - Specific Configuration\n# Loaded after root .env (can override common variables if needed)\n# \n\n# Server Port (" ++
      pyTitle n ++ " Service)") ++
    ("\n" ++ (("PORT=" ++ intStr p) ++ "\n")) := by
  have hs : (" Service)\nPORT=" : String) = " Service)" ++ ("\n" ++ "PORT=") := by decide
  unfold envContent
  rw [hs]
  simp only [strAppend_assoc]

theorem envContent_port_line (n : String) (p : Int) :
    ("PORT=" ++ intStr p) ∈ linesOf (envContent n p) := by
  rw [envContent_decomp]
  have hl : ('\n' : Char) ∉ ("PORT=" ++ intStr p).data := by
    rw [strData_append]
    intro h
    rcases List.mem_append.mp h with h1 | h2
    · exact absurd h1 (by decide)
    · exact newline_not_mem_intStr p h2
  have h2 := line_mem_of_decomp
    ("# \n# " ++ pyUpper n ++
      " SERVICE - Specific Configuration\n# Loaded after root .env (can override common variables if needed)\n# \n\n# Server Port (" ++
      pyTitle n ++ " Service)") (("PORT=" ++ intStr p).data) hl
  rwa [strMk_data] at h2

end CreateService

namespace CreateService

set_option maxRecDepth 8000

/-! ### Claim theorems -/

/-- C1 (amended: the code writes six rendered files, not the claimed
seven).  For every `(serviceName, port)` pair where the services root is a
directory and no entry at or below `services/<serviceName>` pre-exists,
running the scaffolder creates exactly the fixed directory skeleton (the
service directory plus `src`, `config`, `models`, `scripts`) and six
rendered files, and completes normally (exit status 0). -/
theorem c1_scaffold_success (n : String) (p : Int) (fs : Fs)
    (hroot : lookupFs fs ["services"] = some Entry.dir)
    (hclean : fs.all (fun e => !(isUnder (serviceDir n) e.1)) = true) :
    create_service n p fs = RunResult.ok (scaffoldEntries n p ++ fs) ∧
    (scaffoldEntries n p).map Prod.fst =
      [["services", n, "README.md"], ["services", n, "index.route.js"],
       ["services", n, "config", "express.config.js"],
       ["services", n, "index.js"], ["services", n, ".env"],
       ["services", n, "package.json"], ["services", n, "scripts"],
       ["services", n, "models"], ["services", n, "config"],
       ["services", n, "src"], ["services", n]] ∧
    countFiles (scaffoldEntries n p) = 6 ∧
    countDirs (scaffoldEntries n p) = 5 := by
  refine ⟨create_service_success n p fs hroot hclean, ?_, ?_, ?_⟩
  · simp [scaffoldEntries]
  · simp [countFiles, scaffoldEntries, List.filter]
  · simp [countDirs, scaffoldEntries, List.filter]

/-- Witness for C1 at `("order", 3003)` on a root holding only `services/`. -/
theorem c1_scaffold_success_witness :
    lookupFs [(["services"], Entry.dir)] ["services"] = some Entry.dir ∧
    ([(["services"], Entry.dir)] : Fs).all
      (fun e => !(isUnder (serviceDir "order") e.1)) = true ∧
    (create_service "order" 3003 [(["services"], Entry.dir)] =
       RunResult.ok (scaffoldEntries "order" 3003 ++ [(["services"], Entry.dir)]) ∧
     (scaffoldEntries "order" 3003).map Prod.fst =
      [["services", "order", "README.md"], ["services", "order", "index.route.js"],
       ["services", "order", "config", "express.config.js"],
       ["services", "order", "index.js"], ["services", "order", ".env"],
       ["services", "order", "package.json"], ["services", "order", "scripts"],
       ["services", "order", "models"], ["services", "order", "config"],
       ["services", "order", "src"], ["services", "order"]] ∧
     countFiles (scaffoldEntries "order" 3003) = 6 ∧
     countDirs (scaffoldEntries "order" 3003) = 5) :=
  ⟨by decide, by decide,
   c1_scaffold_success "order" 3003 [(["services"], Entry.dir)] (by decide) (by decide)⟩

/-- Counterexample for C1 as stated: at `("order", 3003)` on a root holding
only `services/`, the run succeeds but its result holds six file entries
(its input held zero), not seven: the generated file count is not 7. -/
theorem c1_seven_files_counterexample :
    create_service "order" 3003 [(["services"], Entry.dir)] =
      RunResult.ok (scaffoldEntries "order" 3003 ++ [(["services"], Entry.dir)]) ∧
    countFiles [(["services"], Entry.dir)] = 0 ∧
    countFiles (scaffoldEntries "order" 3003 ++ [(["services"], Entry.dir)]) = 6 ∧
    ¬ countFiles (scaffoldEntries "order" 3003 ++ [(["services"], Entry.dir)]) = 7 :=
  ⟨create_service_success "order" 3003 [(["services"], Entry.dir)] (by decide) (by decide),
   by decide, by decide, by decide⟩

/-- C2: when `services/<serviceName>` already exists, `create_service`
leaves the filesystem unchanged (the outcome carries the input state: the
existence check runs before any write) and exits with status 1. -/
theorem c2_existing_dir_exits_unchanged (n : String) (p : Int) (fs : Fs)
    (h : pathExists fs (serviceDir n) = true) :
    create_service n p fs = RunResult.exited 1 fs := by
  simp [create_service, h]

/-- Witness for C2 at `("order", 3003)` with `services/order` present. -/
theorem c2_existing_dir_witness :
    pathExists [(["services", "order"], Entry.dir)] (serviceDir "order") = true ∧
    create_service "order" 3003 [(["services", "order"], Entry.dir)] =
      RunResult.exited 1 [(["services", "order"], Entry.dir)] :=
  ⟨by decide,
   c2_existing_dir_exits_unchanged "order" 3003
     [(["services", "order"], Entry.dir)] (by decide)⟩

/-- C3: when the port argument does not parse as an integer, the program
makes no filesystem change and exits with status 1, on any filesystem. -/
theorem c3_invalid_port_exits_unchanged (n portStr : String) (fs : Fs)
    (h : parseIntPy portStr = none) :
    mainRun [n, portStr] fs = RunResult.exited 1 fs := by
  simp [mainRun, h]

/-- Witness for C3 at port string `"abc"`. -/
theorem c3_invalid_port_witness :
    parseIntPy "abc" = none ∧
    mainRun ["order", "abc"] [(["services"], Entry.dir)] =
      RunResult.exited 1 [(["services"], Entry.dir)] :=
  ⟨by decide,
   c3_invalid_port_exits_unchanged "order" "abc" [(["services"], Entry.dir)] (by decide)⟩

/-- C4: with any positional argument count other than two, the program
prints usage and exits with status 1 without reaching `create_service`,
leaving the filesystem untouched. -/
theorem c4_wrong_arg_count_exits (args : List String) (fs : Fs)
    (h : args.length ≠ 2) :
    mainRun args fs = RunResult.exited 1 fs := by
  rcases args with _ | ⟨a, _ | ⟨b, _ | ⟨c, rest⟩⟩⟩
  · rfl
  · rfl
  · exact absurd (by simp) h
  · rfl

/-- Witness for C4 with a single positional argument. -/
theorem c4_wrong_arg_count_witness :
    (["order"] : List String).length ≠ 2 ∧
    mainRun ["order"] [(["services"], Entry.dir)] =
      RunResult.exited 1 [(["services"], Entry.dir)] :=
  ⟨by decide, c4_wrong_arg_count_exits ["order"] [(["services"], Entry.dir)] (by decide)⟩

/-- C5: every successful scaffold writes a `package.json` whose content is
the rendering of the `package_json` JSON value (hence JSON text), and that
value's top-level `name` field is exactly `<serviceName> ++ "-service"`. -/
theorem c5_package_json_name_field (n : String) (p : Int) (fs : Fs)
    (hroot : lookupFs fs ["services"] = some Entry.dir)
    (hclean : fs.all (fun e => !(isUnder (serviceDir n) e.1)) = true) :
    create_service n p fs = RunResult.ok (scaffoldEntries n p ++ fs) ∧
    lookupFs (scaffoldEntries n p ++ fs) ["services", n, "package.json"] =
      some (Entry.file (renderJson 0 (package_json n))) ∧
    IsJsonText (renderJson 0 (package_json n)) ∧
    jsonField (package_json n) "name" = some (Json.str (n ++ "-service")) := by
  refine ⟨create_service_success n p fs hroot hclean, ?_, ⟨package_json n, rfl⟩, ?_⟩
  · simp [scaffoldEntries, lookupFs]
  · simp [jsonField, package_json, List.lookup]

/-- Witness for C5 at `("order", 3003)`. -/
theorem c5_package_json_name_witness :
    lookupFs [(["services"], Entry.dir)] ["services"] = some Entry.dir ∧
    ([(["services"], Entry.dir)] : Fs).all
      (fun e => !(isUnder (serviceDir "order") e.1)) = true ∧
    (create_service "order" 3003 [(["services"], Entry.dir)] =
       RunResult.ok (scaffoldEntries "order" 3003 ++ [(["services"], Entry.dir)]) ∧
     lookupFs (scaffoldEntries "order" 3003 ++ [(["services"], Entry.dir)])
       ["services", "order", "package.json"] =
       some (Entry.file (renderJson 0 (package_json "order"))) ∧
     IsJsonText (renderJson 0 (package_json "order")) ∧
     jsonField (package_json "order") "name" = some (Json.str ("order" ++ "-service"))) :=
  ⟨by decide, by decide,
   c5_package_json_name_field "order" 3003 [(["services"], Entry.dir)]
     (by decide) (by decide)⟩

/-- C6: every successful scaffold writes a `.env` whose content is
`envContent`, and that content contains a line exactly equal to
`"PORT=" ++ intStr port`. -/
theorem c6_env_port_line (n : String) (p : Int) (fs : Fs)
    (hroot : lookupFs fs ["services"] = some Entry.dir)
    (hclean : fs.all (fun e => !(isUnder (serviceDir n) e.1)) = true) :
    create_service n p fs = RunResult.ok (scaffoldEntries n p ++ fs) ∧
    lookupFs (scaffoldEntries n p ++ fs) ["services", n, ".env"] =
      some (Entry.file (envContent n p)) ∧
    ("PORT=" ++ intStr p) ∈ linesOf (envContent n p) := by
  refine ⟨create_service_success n p fs hroot hclean, ?_, envContent_port_line n p⟩
  simp [scaffoldEntries, lookupFs]

/-- Witness for C6 at `("order", 3003)`. -/
theorem c6_env_port_line_witness :
    lookupFs [(["services"], Entry.dir)] ["services"] = some Entry.dir ∧
    ([(["services"], Entry.dir)] : Fs).all
      (fun e => !(isUnder (serviceDir "order") e.1)) = true ∧
    (create_service "order" 3003 [(["services"], Entry.dir)] =
       RunResult.ok (scaffoldEntries "order" 3003 ++ [(["services"], Entry.dir)]) ∧
     lookupFs (scaffoldEntries "order" 3003 ++ [(["services"], Entry.dir)])
       ["services", "order", ".env"] =
       some (Entry.file (envContent "order" 3003)) ∧
     ("PORT=" ++ intStr 3003) ∈ linesOf (envContent "order" 3003)) :=
  ⟨by decide, by decide,
   c6_env_port_line "order" 3003 [(["services"], Entry.dir)] (by decide) (by decide)⟩

/-- C7: the concrete scenario `scaffold("order", 3003)` starting from a
root holding only `services/`: the run succeeds, creates the four
subdirectories (and the service directory), writes `package.json` with
name field `"order-service"`, a `.env` containing the line `PORT=3003`,
and a `README.md` containing the substring `Port: 3003`. -/
theorem c7_order_3003_scenario :
    create_service "order" 3003 [(["services"], Entry.dir)] =
      RunResult.ok (scaffoldEntries "order" 3003 ++ [(["services"], Entry.dir)]) ∧
    lookupFs (scaffoldEntries "order" 3003 ++ [(["services"], Entry.dir)])
      ["services", "order"] = some Entry.dir ∧
    lookupFs (scaffoldEntries "order" 3003 ++ [(["services"], Entry.dir)])
      ["services", "order", "src"] = some Entry.dir ∧
    lookupFs (scaffoldEntries "order" 3003 ++ [(["services"], Entry.dir)])
      ["services", "order", "config"] = some Entry.dir ∧
    lookupFs (scaffoldEntries "order" 3003 ++ [(["services"], Entry.dir)])
      ["services", "order", "models"] = some Entry.dir ∧
    lookupFs (scaffoldEntries "order" 3003 ++ [(["services"], Entry.dir)])
      ["services", "order", "scripts"] = some Entry.dir ∧
    lookupFs (scaffoldEntries "order" 3003 ++ [(["services"], Entry.dir)])
      ["services", "order", "package.json"] =
      some (Entry.file (renderJson 0 (package_json "order"))) ∧
    jsonField (package_json "order") "name" = some (Json.str "order-service") ∧
    lookupFs (scaffoldEntries "order" 3003 ++ [(["services"], Entry.dir)])
      ["services", "order", ".env"] = some (Entry.file (envContent "order" 3003)) ∧
    "PORT=3003" ∈ linesOf (envContent "order" 3003) ∧
    lookupFs (scaffoldEntries "order" 3003 ++ [(["services"], Entry.dir)])
      ["services", "order", "README.md"] =
      some (Entry.file (readmeMd "order" 3003)) ∧
    containsSubstr (readmeMd "order" 3003) "Port: 3003" = true :=
  ⟨create_service_success "order" 3003 [(["services"], Entry.dir)] (by decide) (by decide),
   rfl, rfl, rfl, rfl, rfl, rfl,
   by
     have h : ("order" ++ "-service" : String) = "order-service" := by decide
     simp [jsonField, package_json, List.lookup, h],
   rfl, by decide, rfl, by decide⟩

/-- C8: from a clean state the first run succeeds; rerunning with the same
arguments on the resulting state exits with status 1 and carries that
state through unchanged (every file and directory of the first run kept). -/
theorem c8_second_run_fails_untouched (n : String) (p : Int) (fs : Fs)
    (hroot : lookupFs fs ["services"] = some Entry.dir)
    (hclean : fs.all (fun e => !(isUnder (serviceDir n) e.1)) = true) :
    create_service n p fs = RunResult.ok (scaffoldEntries n p ++ fs) ∧
    create_service n p (scaffoldEntries n p ++ fs) =
      RunResult.exited 1 (scaffoldEntries n p ++ fs) := by
  refine ⟨create_service_success n p fs hroot hclean, ?_⟩
  have hex : pathExists (scaffoldEntries n p ++ fs) (serviceDir n) = true := by
    simp [pathExists, scaffoldEntries, lookupFs, serviceDir]
  simp [create_service, hex]

/-- Witness for C8 at `("order", 3003)`. -/
theorem c8_second_run_witness :
    lookupFs [(["services"], Entry.dir)] ["services"] = some Entry.dir ∧
    ([(["services"], Entry.dir)] : Fs).all
      (fun e => !(isUnder (serviceDir "order") e.1)) = true ∧
    (create_service "order" 3003 [(["services"], Entry.dir)] =
       RunResult.ok (scaffoldEntries "order" 3003 ++ [(["services"], Entry.dir)]) ∧
     create_service "order" 3003
       (scaffoldEntries "order" 3003 ++ [(["services"], Entry.dir)]) =
       RunResult.exited 1 (scaffoldEntries "order" 3003 ++ [(["services"], Entry.dir)])) :=
  ⟨by decide, by decide,
   c8_second_run_fails_untouched "order" 3003 [(["services"], Entry.dir)]
     (by decide) (by decide)⟩

/-- C9: the pre-existence check is plain `Path.exists`, not a directory
test: a regular file at `services/<serviceName>` also makes the scaffolder
exit with status 1 without writing anything. -/
theorem c9_existing_file_entry_blocks (n : String) (p : Int) (c : String) (fs : Fs)
    (h : lookupFs fs (serviceDir n) = some (Entry.file c)) :
    create_service n p fs = RunResult.exited 1 fs := by
  simp [create_service, pathExists, h]

/-- Witness for C9 with a regular file at `services/order`. -/
theorem c9_existing_file_entry_witness :
    lookupFs [(["services"], Entry.dir), (["services", "order"], Entry.file "stub")]
      (serviceDir "order") = some (Entry.file "stub") ∧
    create_service "order" 3003
      [(["services"], Entry.dir), (["services", "order"], Entry.file "stub")] =
      RunResult.exited 1
        [(["services"], Entry.dir), (["services", "order"], Entry.file "stub")] :=
  ⟨by decide,
   c9_existing_file_entry_blocks "order" 3003 "stub"
     [(["services"], Entry.dir), (["services", "order"], Entry.file "stub")] (by decide)⟩

/-- C10: on each of the three error paths wrong argument count,
unparseable port, pre-existing destination the exit status is exactly 1. -/
theorem c10_error_exit_code_one (args : List String) (n portStr : String)
    (p : Int) (m : String) (fs : Fs) :
    (args.length ≠ 2 → mainRun args fs = RunResult.exited 1 fs) ∧
    (parseIntPy portStr = none → mainRun [n, portStr] fs = RunResult.exited 1 fs) ∧
    (pathExists fs (serviceDir m) = true →
      create_service m p fs = RunResult.exited 1 fs) := by
  refine ⟨?_, ?_, ?_⟩
  · intro h
    rcases args with _ | ⟨a, _ | ⟨b, _ | ⟨c, rest⟩⟩⟩
    · rfl
    · rfl
    · exact absurd (by simp) h
    · rfl
  · intro h
    simp [mainRun, h]
  · intro h
    simp [create_service, h]

/-- Witness for C10: all three error paths at concrete inputs. -/
theorem c10_error_exit_code_one_witness :
    mainRun ["order"] [(["services"], Entry.dir)] =
      RunResult.exited 1 [(["services"], Entry.dir)] ∧
    mainRun ["order", "abc"] [(["services"], Entry.dir)] =
      RunResult.exited 1 [(["services"], Entry.dir)] ∧
    create_service "order" 3003 [(["services", "order"], Entry.dir)] =
      RunResult.exited 1 [(["services", "order"], Entry.dir)] :=
  ⟨(c10_error_exit_code_one ["order"] "order" "abc" 3003 "order"
      [(["services"], Entry.dir)]).1 (by decide),
   (c10_error_exit_code_one ["order"] "order" "abc" 3003 "order"
      [(["services"], Entry.dir)]).2.1 (by decide),
   (c10_error_exit_code_one ["order"] "order" "abc" 3003 "order"
      [(["services", "order"], Entry.dir)]).2.2 (by decide)⟩

end CreateService
